import Mathlib

set_option maxHeartbeats 1000000

/-! Verification development for the democracy/authoritarianism agent-based
simulation engine: agent and society state, the coupled derivative equations,
the Euler integration step, the multi-realization steady-state evaluator, and
the parameter-sensitivity analyzer (threshold bisection search).

Numbers are modelled as rationals (`ℚ`); the JavaScript engine uses IEEE
doubles, but every property verified here is structural (control flow,
clamping, ordering of state reads and writes, interval membership) and does
not depend on rounding. Stochastic inputs (`Math.random()`) are modelled as
explicit oracle arguments, and `Math.sqrt` as an abstract function argument
`sqrtFn`, so each theorem quantifies over every possible draw sequence. -/

/-- Per-agent state, from `src/js/agent.js` (class `Agent`): identity, fixed
position, the 9 state scalars, the transient contact intensities, and the
neighbor list (modelled as indices into the owning population's agent array;
the JavaScript keeps direct object references into the same array). -/
structure AgentState where
  id : ℕ
  x : ℚ
  y : ℚ
  wealth : ℚ
  education : ℚ
  security : ℚ
  toleranceEconomic : ℚ
  tolerancePhysical : ℚ
  toleranceCultural : ℚ
  civicEnergy : ℚ
  permeability : ℚ
  democraticAdherence : ℚ
  positiveContacts : ℚ
  negativeContacts : ℚ
  neighbors : List ℕ
deriving DecidableEq

/-- The five per-agent derivative values returned by
`computeAgentDerivatives` (src/unnamed/part_003, equations module). -/
structure Derivatives where
  dAlpha : ℚ
  dTauC : ℚ
  dSecurity : ℚ
  dPermeability : ℚ
  dCivicEnergy : ℚ
deriving DecidableEq

/-- `Agent.clamp(value, min, max) = Math.max(min, Math.min(max, value))`
(src/js/agent.js). -/
def clamp (value lo hi : ℚ) : ℚ :=
  max lo (min hi value)

/-- `Agent.update(derivatives, dt)` (src/js/agent.js lines 66-83): forward
Euler update of the 5 evolved fields, then clamping of each bounded field to
its domain and flooring of wealth at 0. -/
def AgentState.update (a : AgentState) (d : Derivatives) (dt : ℚ) : AgentState :=
  let a1 := { a with
    democraticAdherence := a.democraticAdherence + d.dAlpha * dt,
    toleranceCultural := a.toleranceCultural + d.dTauC * dt,
    security := a.security + d.dSecurity * dt,
    permeability := a.permeability + d.dPermeability * dt,
    civicEnergy := a.civicEnergy + d.dCivicEnergy * dt }
  { a1 with
    democraticAdherence := clamp a1.democraticAdherence (-1) 1,
    toleranceCultural := clamp a1.toleranceCultural (-1) 1,
    toleranceEconomic := clamp a1.toleranceEconomic (-1) 1,
    tolerancePhysical := clamp a1.tolerancePhysical (-1) 1,
    security := clamp a1.security 0 1,
    permeability := clamp a1.permeability 0 1,
    civicEnergy := clamp a1.civicEnergy 0 1,
    wealth := max 0 a1.wealth }

/-- The declared domains of the evolved agent fields: democraticAdherence and
toleranceCultural in [-1, 1]; security, permeability, civicEnergy in [0, 1];
wealth nonnegative. -/
def AgentState.inDomain (a : AgentState) : Prop :=
  -1 ≤ a.democraticAdherence ∧ a.democraticAdherence ≤ 1 ∧
  -1 ≤ a.toleranceCultural ∧ a.toleranceCultural ≤ 1 ∧
  0 ≤ a.security ∧ a.security ≤ 1 ∧
  0 ≤ a.permeability ∧ a.permeability ≤ 1 ∧
  0 ≤ a.civicEnergy ∧ a.civicEnergy ≤ 1 ∧
  0 ≤ a.wealth

instance (a : AgentState) : Decidable a.inDomain := by
  unfold AgentState.inDomain
  infer_instance

/-- Macroscopic society scalars, from the `Society` class (src/js/main.js,
Society constructor): Gini inequality, precarity, cultural diversity, the
three evolved macro variables and the exogenous external threat. The owned
agent population is carried separately (see `SimState`). -/
structure SocietyState where
  gini : ℚ
  precarity : ℚ
  diversity : ℚ
  institutionalQuality : ℚ
  polarization : ℚ
  perceivedThreat : ℚ
  externalThreat : ℚ
deriving DecidableEq

/-- One self-contained realization state: the agent population plus the
macroscopic society scalars (the JavaScript `Society` holds the agents by
reference; here the pair is explicit). -/
structure SimState where
  agents : List AgentState
  society : SocietyState
deriving DecidableEq

/-- The 30 model weights of the `Parameters` class
(src/unnamed/part_003, equations module, lines 9-57). -/
structure Parameters where
  beta1 : ℚ
  beta2 : ℚ
  beta3 : ℚ
  beta4 : ℚ
  gamma1 : ℚ
  gamma2 : ℚ
  gamma3 : ℚ
  gamma4 : ℚ
  delta1 : ℚ
  delta2 : ℚ
  delta3 : ℚ
  delta4 : ℚ
  delta5 : ℚ
  eta1 : ℚ
  eta2 : ℚ
  eta3 : ℚ
  lambda1 : ℚ
  lambda2 : ℚ
  lambda3 : ℚ
  lambda4 : ℚ
  mu1 : ℚ
  mu2 : ℚ
  mu3 : ℚ
  nu1 : ℚ
  nu2 : ℚ
  nu3 : ℚ
  rho1 : ℚ
  rho2 : ℚ
  rho3 : ℚ
  rho4 : ℚ
deriving DecidableEq

/-- `Society.getAverage(property)` (src/js/main.js): population mean of a
field. (In ℚ, division by a zero population count yields 0; the engine only
ever averages nonempty populations.) -/
def getAverage (agents : List AgentState) (f : AgentState → ℚ) : ℚ :=
  (agents.map f).sum / (agents.length : ℚ)

/-- The variance part of `Society.getStdDev(property)` (src/js/main.js):
mean squared deviation with divisor n. -/
def getVariance (agents : List AgentState) (f : AgentState → ℚ) : ℚ :=
  (agents.map (fun a => (f a - getAverage agents f) ^ 2)).sum / (agents.length : ℚ)

/-- `Society.getStdDev(property)` = `Math.sqrt` of the mean squared
deviation; the square root is the abstract `sqrtFn` argument. -/
def getStdDev (sqrtFn : ℚ → ℚ) (agents : List AgentState) (f : AgentState → ℚ) : ℚ :=
  sqrtFn (getVariance agents f)

/-- Ascending insertion of a wealth value, used to model the JavaScript
`sort((a, b) => a - b)` in `calculateGini`. -/
def insertAsc (w : ℚ) : List ℚ → List ℚ
  | [] => [w]
  | v :: rest => if w ≤ v then w :: v :: rest else v :: insertAsc w rest

/-- Ascending sort (insertion sort) of a list of wealths. -/
def sortAsc : List ℚ → List ℚ
  | [] => []
  | v :: rest => insertAsc v (sortAsc rest)

/-- `Society.calculateGini()` (src/js/main.js): sort wealths ascending; with
n agents and 0-based index i, Gini = Σ (2·(i+1) − n − 1)·wᵢ / (n·Σwᵢ),
and 0 when the total wealth is 0. -/
def calculateGini (agents : List AgentState) : ℚ :=
  let n := agents.length
  let wealths := sortAsc (agents.map (fun a => a.wealth))
  let totalWealth := wealths.sum
  if totalWealth = 0 then 0
  else (wealths.enum.map (fun iw => (2 * ((iw.1 : ℚ) + 1) - (n : ℚ) - 1) * iw.2)).sum
        / ((n : ℚ) * totalWealth)

/-- `Agent.getNeighborhoodAverage(property)` (src/js/agent.js lines 40-48):
the agent's own value when it has no neighbors, otherwise the mean of the
field over its neighbor set (indices resolved in the owning population). -/
def getNeighborhoodAverage (agents : List AgentState) (a : AgentState)
    (f : AgentState → ℚ) : ℚ :=
  if a.neighbors = [] then f a
  else ((a.neighbors.map (fun j => f ((agents.get? j).getD a))).sum
        / (a.neighbors.length : ℚ))

/-- Equation 3.1, `computeDemocraticAdherence(agent, society, params)`
(src/unnamed/part_003 lines 63-73). -/
def computeDemocraticAdherence (a : AgentState) (agents : List AgentState)
    (society : SocietyState) (params : Parameters) : ℚ :=
  let avgAlpha := getNeighborhoodAverage agents a (fun b => b.democraticAdherence)
  let socialInfluence := a.permeability * avgAlpha
  let educationEffect := params.beta1 * a.education * (1 - a.democraticAdherence)
  let insecurityErosion := -params.beta2 * (1 - a.security) * a.democraticAdherence
  let institutionalEffect := params.beta3 * society.institutionalQuality
  let fearEffect := -params.beta4 * society.perceivedThreat * a.permeability
  socialInfluence + educationEffect + insecurityErosion + institutionalEffect + fearEffect

/-- Equation 3.2, `computeCulturalTolerance(agent, society, params)`
(src/unnamed/part_003 lines 79-86). -/
def computeCulturalTolerance (a : AgentState) (society : SocietyState)
    (params : Parameters) : ℚ :=
  let educationOpenness := params.gamma1 * a.education * (1 - a.toleranceCultural)
  let positiveContact := params.gamma2 * a.positiveContacts * (1 - a.toleranceCultural)
  let negativeContact := -params.gamma3 * a.negativeContacts * (1 + a.toleranceCultural)
  let identityRetreat :=
    -params.gamma4 * (1 - a.security) * society.polarization * a.toleranceCultural
  educationOpenness + positiveContact + negativeContact + identityRetreat

/-- Equation 3.3, `computeSecurity(agent, society, params)`
(src/unnamed/part_003 lines 92-103); a zero or negative mean wealth makes the
relative-wealth term 1. -/
def computeSecurity (a : AgentState) (agents : List AgentState)
    (society : SocietyState) (params : Parameters) : ℚ :=
  let avgWealth := getAverage agents (fun b => b.wealth)
  let relativeWealth := if 0 < avgWealth then a.wealth / avgWealth else 1
  let wealthEffect := params.delta1 * relativeWealth
  let institutionalSafety := params.delta2 * society.institutionalQuality
  let precarityEffect := -params.delta3 * society.precarity
  let anxiousClimate := -params.delta4 * society.perceivedThreat
  let mediaContagion := -params.delta5 * a.permeability * society.polarization
  wealthEffect + institutionalSafety + precarityEffect + anxiousClimate + mediaContagion

/-- Equation 3.4, `computePermeability(agent, society, params)`
(src/unnamed/part_003 lines 109-115). -/
def computePermeability (a : AgentState) (society : SocietyState)
    (params : Parameters) : ℚ :=
  let criticalThinking := -params.eta1 * a.education * a.permeability
  let vulnerability := params.eta2 * (1 - a.security) * (1 - a.permeability)
  let mediaPressure := params.eta3 * society.polarization * (1 - a.permeability)
  criticalThinking + vulnerability + mediaPressure

/-- Equation 3.5, `computeCivicEnergy(agent, society, params)`
(src/unnamed/part_003 lines 121-130). -/
def computeCivicEnergy (a : AgentState) (agents : List AgentState)
    (society : SocietyState) (params : Parameters) : ℚ :=
  let avgEnergy := getNeighborhoodAverage agents a (fun b => b.civicEnergy)
  let availability := params.lambda1 * a.security * (1 - a.civicEnergy)
  let survivalExhaustion := -params.lambda2 * (1 - a.security)
  let socialDrive := params.lambda3 * avgEnergy
  let institutionalDiscouragement := -params.lambda4 * (1 - society.institutionalQuality)
  availability + survivalExhaustion + socialDrive + institutionalDiscouragement

/-- Equation 4.1, `computeInstitutionalQuality(society, params)`
(src/unnamed/part_003 lines 136-145). -/
def computeInstitutionalQuality (agents : List AgentState)
    (society : SocietyState) (params : Parameters) : ℚ :=
  let avgAlpha := getAverage agents (fun b => b.democraticAdherence)
  let avgEnergy := getAverage agents (fun b => b.civicEnergy)
  let democraticEngagement := params.mu1 * avgAlpha * avgEnergy
  let authoritarianCapture := -params.mu2 * (1 - avgAlpha) * society.polarization
  let corruptionByInequality := -params.mu3 * society.gini
  democraticEngagement + authoritarianCapture + corruptionByInequality

/-- Equation 4.2, `computePolarization(society, params)`
(src/unnamed/part_003 lines 151-160); the opinion standard deviation goes
through the abstract `sqrtFn`. -/
def computePolarization (sqrtFn : ℚ → ℚ) (agents : List AgentState)
    (society : SocietyState) (params : Parameters) : ℚ :=
  let opinionVariance := getStdDev sqrtFn agents (fun b => b.democraticAdherence)
  let avgEducation := getAverage agents (fun b => b.education)
  let opinionDivergence := params.nu1 * opinionVariance
  let economicFracture := params.nu2 * society.gini
  let institutionalMediation := -params.nu3 * avgEducation * society.institutionalQuality
  opinionDivergence + economicFracture + institutionalMediation

/-- Equation 4.3, `computePerceivedThreat(society, params)`
(src/unnamed/part_003 lines 166-176). -/
def computePerceivedThreat (agents : List AgentState) (society : SocietyState)
    (params : Parameters) : ℚ :=
  let avgTolerance := getAverage agents (fun b => b.toleranceCultural)
  let avgSecurity := getAverage agents (fun b => b.security)
  let realThreats := params.rho1 * society.externalThreat
  let amplification := params.rho2 * society.polarization * (1 - society.institutionalQuality)
  let xenophobia := params.rho3 * society.diversity * (1 - avgTolerance)
  let collectiveResilience := -params.rho4 * avgSecurity
  realThreats + amplification + xenophobia + collectiveResilience

/-- `computeAgentDerivatives(agent, society, params)`
(src/unnamed/part_003 lines 181-189). -/
def computeAgentDerivatives (a : AgentState) (agents : List AgentState)
    (society : SocietyState) (params : Parameters) : Derivatives :=
  { dAlpha := computeDemocraticAdherence a agents society params,
    dTauC := computeCulturalTolerance a society params,
    dSecurity := computeSecurity a agents society params,
    dPermeability := computePermeability a society params,
    dCivicEnergy := computeCivicEnergy a agents society params }

/-- The three macroscopic derivative values returned by
`computeMacroDerivatives`. -/
structure MacroDerivatives where
  dQ : ℚ
  dPhi : ℚ
  dM : ℚ
deriving DecidableEq

/-- `computeMacroDerivatives(society, params)`
(src/unnamed/part_003 lines 194-200). -/
def computeMacroDerivatives (sqrtFn : ℚ → ℚ) (agents : List AgentState)
    (society : SocietyState) (params : Parameters) : MacroDerivatives :=
  { dQ := computeInstitutionalQuality agents society params,
    dPhi := computePolarization sqrtFn agents society params,
    dM := computePerceivedThreat agents society params }

/-- `Society.update(derivatives, dt)` (src/js/main.js): Euler-update and
clamp the three evolved macro scalars to [0, 1], then recompute Gini and
precarity from the (already-updated) agent population. -/
def SocietyState.update (agents : List AgentState) (society : SocietyState)
    (d : MacroDerivatives) (dt : ℚ) : SocietyState :=
  { society with
    institutionalQuality := max 0 (min 1 (society.institutionalQuality + d.dQ * dt)),
    polarization := max 0 (min 1 (society.polarization + d.dPhi * dt)),
    perceivedThreat := max 0 (min 1 (society.perceivedThreat + d.dM * dt)),
    gini := calculateGini agents,
    precarity := 1 - getAverage agents (fun b => b.security) }

/-- The stochastic intercultural-contact pass
(`Simulator.simulateInterculturalContacts`, src/js/simulator.js lines
91-108, and the identical inline pass of `singleRealization`,
src/unnamed/part_003 lines 536-547): for agent number i, `(draws i).1`
models the Bernoulli `Math.random()` draw tested against
diversity × 0.1, and `(draws i).2` the intensity `Math.random()` draw
scaled by 0.5. -/
def simulateInterculturalContacts (draws : ℕ → ℚ × ℚ) (st : SimState) : SimState :=
  let contactProbability := st.society.diversity * (1 / 10)
  { st with agents := st.agents.enum.map (fun ia =>
      let a0 := { ia.2 with positiveContacts := 0, negativeContacts := 0 }
      if (draws ia.1).1 < contactProbability then
        if 0 < ia.2.toleranceCultural then
          { a0 with positiveContacts := (draws ia.1).2 * (1 / 2) }
        else
          { a0 with negativeContacts := (draws ia.1).2 * (1 / 2) }
      else a0) }

/-- One integration step (`Simulator.step`, src/js/simulator.js lines
113-140, steps 1-5; the loop body of `singleRealization`,
src/unnamed/part_003 lines 534-559, is the same computation): contact pass,
then all agent derivatives and the macro derivatives are computed, then all
agents are updated, then the society is updated. Time bookkeeping and the
display-only history stride are not part of the modelled state. -/
def simulatorStep (params : Parameters) (dt : ℚ) (draws : ℕ → ℚ × ℚ)
    (sqrtFn : ℚ → ℚ) (st : SimState) : SimState :=
  let stC := simulateInterculturalContacts draws st
  let agentDerivatives :=
    stC.agents.map (fun a => computeAgentDerivatives a stC.agents stC.society params)
  let macroDerivatives := computeMacroDerivatives sqrtFn stC.agents stC.society params
  let newAgents := (stC.agents.zip agentDerivatives).map (fun ad =>
    AgentState.update ad.1 ad.2 dt)
  { agents := newAgents,
    society := SocietyState.update newAgents stC.society macroDerivatives dt }

/-- `Society.getOrderParameter()` (src/js/main.js): Ψ = ⟨α⟩ · Q. -/
def SimState.orderParameter (st : SimState) : ℚ :=
  getAverage st.agents (fun b => b.democraticAdherence) * st.society.institutionalQuality

/-- The early-stop condition of `singleRealization` (src/unnamed/part_003
lines 563-568): institutional quality at or below 0.05, or order parameter
at or above 0.95. -/
def stableReached (st : SimState) : Prop :=
  st.society.institutionalQuality ≤ 1 / 20 ∨ 19 / 20 ≤ st.orderParameter

instance (st : SimState) : Decidable (stableReached st) := by
  unfold stableReached
  infer_instance

/-- The state after k unconditional integration steps (`stepF j` is the j-th
step of the realization, absorbing that step's random draws). -/
def realizationOrbit (stepF : ℕ → SimState → SimState) : ℕ → SimState → SimState
  | 0, st => st
  | k + 1, st => realizationOrbit (fun j => stepF (j + 1)) k (stepF 0 st)

/-- The integration loop of `singleRealization` (src/unnamed/part_003 lines
534-569): up to `fuel` steps; after each step the early-stop condition is
tested and, when it holds, no further step is performed. -/
def realizationLoop (stepF : ℕ → SimState → SimState) : ℕ → SimState → SimState
  | 0, st => st
  | fuel + 1, st =>
    let stNext := stepF 0 st
    if stableReached stNext then stNext
    else realizationLoop (fun j => stepF (j + 1)) fuel stNext

/-- `numSteps = Math.floor(tMax / dt)` (src/unnamed/part_003 line 532). -/
def numSteps (tMax dt : ℚ) : ℕ :=
  Int.toNat ⌊tMax / dt⌋

/-- The final state of `singleRealization(params, tMax, dt, numAgents)`
(src/unnamed/part_003 lines 490-573). The random population construction and
neighborhood wiring (lines 492-526) are modelled by the arbitrary initial
state `init`; `draws k` supplies step k's contact randomness. -/
def singleRealizationFinal (params : Parameters) (tMax dt : ℚ)
    (draws : ℕ → ℕ → ℚ × ℚ) (sqrtFn : ℚ → ℚ) (init : SimState) : SimState :=
  realizationLoop (fun k => simulatorStep params dt (draws k) sqrtFn)
    (numSteps tMax dt) init

/-- The value returned by `singleRealization`: the order parameter of the
state at the stopping point (src/unnamed/part_003 line 572). -/
def singleRealizationPsi (params : Parameters) (tMax dt : ℚ)
    (draws : ℕ → ℕ → ℚ × ℚ) (sqrtFn : ℚ → ℚ) (init : SimState) : ℚ :=
  (singleRealizationFinal params tMax dt draws sqrtFn init).orderParameter

/-- `simulateToSteadyState(params, tMax, dt, numAgents, numRealizations)`
(src/unnamed/part_003 lines 465-484): run `numRealizations` independent
realizations (default 10; realization r starts from the freshly randomized
population `inits r` and consumes the draw family `draws r`) and return the
arithmetic mean of their final order-parameter values. This mean is the
entire return value; the realization-spread diagnostic is
`realizationVariance` below. -/
def simulateToSteadyState (params : Parameters) (tMax dt : ℚ)
    (numRealizations : ℕ) (inits : ℕ → SimState)
    (draws : ℕ → ℕ → ℕ → ℚ × ℚ) (sqrtFn : ℚ → ℚ) : ℚ :=
  let psiValues := (List.range numRealizations).map
    (fun r => singleRealizationPsi params tMax dt (draws r) sqrtFn (inits r))
  psiValues.sum / (numRealizations : ℚ)

/-- The `variance` local of `simulateToSteadyState` (src/unnamed/part_003
lines 474-475): mean squared deviation of the realization Ψ values around
their mean. The source takes `stdDev = Math.sqrt(variance)` and writes it to
the console when it exceeds 0.05 (equivalently, when this variance exceeds
1/400); neither value reaches the caller. -/
def realizationVariance (params : Parameters) (tMax dt : ℚ)
    (numRealizations : ℕ) (inits : ℕ → SimState)
    (draws : ℕ → ℕ → ℕ → ℚ × ℚ) (sqrtFn : ℚ → ℚ) : ℚ :=
  let psiValues := (List.range numRealizations).map
    (fun r => singleRealizationPsi params tMax dt (draws r) sqrtFn (inits r))
  let avgPsi := psiValues.sum / (numRealizations : ℚ)
  (psiValues.map (fun v => (v - avgPsi) ^ 2)).sum / (numRealizations : ℚ)

/-- The requested threshold type of `findParameterForPsi`: the JavaScript
string argument `extremum`, either 'min' or 'max'. -/
inductive Extremum where
  | min : Extremum
  | max : Extremum
deriving DecidableEq

/-- The `satisfiesCondition` test inside `findParameterForPsi`'s bisection
loop (src/unnamed/part_003 lines 628-630): for target Ψ = 0 the one-sided
check `psiMid <= 0 + tolerance`; for any other target the symmetric
two-sided check. -/
def satisfiesCondition (targetPsi tolerance psiMid : ℚ) : Bool :=
  if targetPsi = 0 then decide (psiMid ≤ 0 + tolerance)
  else decide (targetPsi - tolerance ≤ psiMid ∧ psiMid ≤ targetPsi + tolerance)

/-- The mutable locals of `findParameterForPsi`'s bisection loop: bracket
ends `low`/`high`, `bestCandidate`, and the number of Ψ evaluations made so
far (the next index to read from the evaluation stream). -/
structure BisectState where
  low : ℚ
  high : ℚ
  best : ℚ
  calls : ℕ
deriving DecidableEq

/-- One iteration of the bisection loop (src/unnamed/part_003 lines
622-657): evaluate Ψ at the midpoint, record it as best candidate in the
requested direction when it satisfies the tolerance test, then move the
bracket edge according to the measured direction and the sign of
Ψ(mid) − target. -/
def bisectIter (e : ℕ → ℚ) (targetPsi tolerance : ℚ) (isIncreasing : Bool)
    (extremum : Extremum) (s : BisectState) : BisectState :=
  let mid := (s.low + s.high) / 2
  let psiMid := e s.calls
  let best1 :=
    if satisfiesCondition targetPsi tolerance psiMid then
      match extremum with
      | Extremum.min => if mid < s.best then mid else s.best
      | Extremum.max => if s.best < mid then mid else s.best
    else s.best
  if isIncreasing then
    if psiMid < targetPsi then ⟨mid, s.high, best1, s.calls + 1⟩
    else ⟨s.low, mid, best1, s.calls + 1⟩
  else
    if psiMid < targetPsi then ⟨s.low, mid, best1, s.calls + 1⟩
    else ⟨mid, s.high, best1, s.calls + 1⟩

/-- The bisection loop: while iterations remain and the bracket is wider
than tolerance × 0.01, run one `bisectIter`. -/
def bisectLoop (e : ℕ → ℚ) (targetPsi tolerance : ℚ) (isIncreasing : Bool)
    (extremum : Extremum) : ℕ → BisectState → BisectState
  | 0, s => s
  | fuel + 1, s =>
    if tolerance * (1 / 100) < s.high - s.low then
      bisectLoop e targetPsi tolerance isIncreasing extremum fuel
        (bisectIter e targetPsi tolerance isIncreasing extremum s)
    else s

/-- `findParameterForPsi(paramName, targetPsi, baseParams, pMin, pMax,
tolerance, extremum)` (src/unnamed/part_003 lines 587-678). Each internal
`simulateToSteadyState` call is stochastic; the stream `e` supplies its
results in call order (`e 0` at pMin, `e 1` at pMax, then one call per
bisection iteration, then one at the final midpoint), so every theorem below
quantifies over all possible noisy Ψ measurements. `paramName` and
`baseParams` only route values into those calls and are absorbed by `e`. -/
def findParameterForPsi (e : ℕ → ℚ) (targetPsi pMin pMax tolerance : ℚ)
    (extremum : Extremum) : ℚ :=
  let psiAtMin := e 0
  let psiAtMax := e 1
  let isIncreasing : Bool := decide (psiAtMin < psiAtMax)
  let minPsiValue := min psiAtMin psiAtMax
  let maxPsiValue := max psiAtMin psiAtMax
  if targetPsi < minPsiValue ∨ maxPsiValue < targetPsi then
    match extremum with
    | Extremum.min => if isIncreasing then pMin else pMax
    | Extremum.max => if isIncreasing then pMax else pMin
  else
    let s := bisectLoop e targetPsi tolerance isIncreasing extremum 30
      ⟨pMin, pMax,
        (match extremum with
         | Extremum.min => pMax
         | Extremum.max => pMin), 2⟩
    let finalMid := (s.low + s.high) / 2
    let psiFinal := e s.calls
    if |psiFinal - targetPsi| < tolerance then
      match extremum with
      | Extremum.min => min s.best finalMid
      | Extremum.max => max s.best finalMid
    else
      if s.best ≠ (match extremum with
                   | Extremum.min => s.high
                   | Extremum.max => s.low) then s.best
      else finalMid

/-- One entry of the `parametersToAnalyze` table in `analyzeSensitivity`
(src/unnamed/part_003 lines 691-699): tunable-parameter key, search range
and virtuous/harmful classification. -/
structure SweepParam where
  key : String
  min : ℚ
  max : ℚ
  virtuous : Bool
deriving DecidableEq

/-- The sweep table of `analyzeSensitivity` (src/unnamed/part_003 lines
691-699). -/
def parametersToAnalyze : List SweepParam :=
  [⟨"beta1", 0, 2, true⟩,
   ⟨"beta2", 0, 2, false⟩,
   ⟨"beta3", 0, 2, true⟩,
   ⟨"beta4", 0, 2, false⟩,
   ⟨"mu1", 0, 1, true⟩,
   ⟨"mu2", 0, 1, false⟩,
   ⟨"mu3", 0, 1, false⟩]

/-- Observable calls made by `analyzeSensitivity`, in program order: a
`progress` event is an invocation of the caller's progress callback with
(parameterName, current, total); a `search` event is an invocation of
`findParameterForPsi` with the given target, range, tolerance and requested
extremum for the named parameter. -/
inductive SensEvent where
  | progress (name : String) (current total : ℕ) : SensEvent
  | search (name : String) (targetPsi pMin pMax tolerance : ℚ)
      (extremum : Extremum) : SensEvent
deriving DecidableEq

/-- One per-parameter record of the `results` object built by
`analyzeSensitivity` (src/unnamed/part_003 lines 733-739). -/
structure SensResult where
  autocratic : ℚ
  democratic : ℚ
  min : ℚ
  max : ℚ
  virtuous : Bool
deriving DecidableEq

/-- `analyzeSensitivity(baseParams, progressCallback)` (src/unnamed/part_003
lines 686-752): for each sweep parameter, report progress, then find the
autocratic threshold (target Ψ = 0) and the democratic threshold (target
Ψ = 0.3) with the extremum pair selected by the virtuous/harmful
classification, and record the pair together with its min/max. Returns the
per-parameter results in sweep order together with the ordered trace of
callback invocations and search calls. `oracle key target` is the Ψ
evaluation stream consumed by the search for (key, target); console logging
is not modelled. -/
def analyzeSensitivity (oracle : String → ℚ → ℕ → ℚ) :
    List (String × SensResult) × List SensEvent :=
  let total := parametersToAnalyze.length
  parametersToAnalyze.enum.foldl
    (fun acc ip =>
      let i := ip.1
      let param := ip.2
      let pAutocratic :=
        if param.virtuous then
          findParameterForPsi (oracle param.key 0) 0 param.min param.max (1 / 50)
            Extremum.max
        else
          findParameterForPsi (oracle param.key 0) 0 param.min param.max (1 / 50)
            Extremum.min
      let pDemocratic :=
        if param.virtuous then
          findParameterForPsi (oracle param.key (3 / 10)) (3 / 10) param.min param.max
            (1 / 50) Extremum.min
        else
          findParameterForPsi (oracle param.key (3 / 10)) (3 / 10) param.min param.max
            (1 / 50) Extremum.max
      (acc.1 ++ [(param.key,
         ⟨pAutocratic, pDemocratic, Min.min pAutocratic pDemocratic,
          Max.max pAutocratic pDemocratic, param.virtuous⟩)],
       acc.2 ++
         [SensEvent.progress param.key (i + 1) total,
          SensEvent.search param.key 0 param.min param.max (1 / 50)
            (if param.virtuous then Extremum.max else Extremum.min),
          SensEvent.search param.key (3 / 10) param.min param.max (1 / 50)
            (if param.virtuous then Extremum.min else Extremum.max)]))
    ([], [])

/-- The own data properties of a fresh `new Parameters()` object
(src/unnamed/part_003 lines 9-57), as the string-keyed field list the
JavaScript `in` operator and property assignment act on. -/
def parametersObject : List (String × ℚ) :=
  [("beta1", 1 / 2), ("beta2", 3 / 10), ("beta3", 2 / 5), ("beta4", 3 / 5),
   ("gamma1", 3 / 10), ("gamma2", 2 / 5), ("gamma3", 1 / 2), ("gamma4", 3 / 10),
   ("delta1", 2 / 5), ("delta2", 3 / 10), ("delta3", 1 / 5), ("delta4", 3 / 10),
   ("delta5", 1 / 5),
   ("eta1", 3 / 10), ("eta2", 2 / 5), ("eta3", 3 / 10),
   ("lambda1", 2 / 5), ("lambda2", 3 / 10), ("lambda3", 3 / 10), ("lambda4", 1 / 5),
   ("mu1", 3 / 10), ("mu2", 2 / 5), ("mu3", 1 / 5),
   ("nu1", 1 / 2), ("nu2", 3 / 10), ("nu3", 2 / 5),
   ("rho1", 1 / 2), ("rho2", 2 / 5), ("rho3", 3 / 10), ("rho4", 1 / 5)]

/-- Property read on a string-keyed field list: the JavaScript
`param in this.parameters` test succeeds exactly when this returns
`some` value. -/
def lookupParam (name : String) : List (String × ℚ) → Option ℚ
  | [] => none
  | kv :: rest => if kv.1 = name then some kv.2 else lookupParam name rest

/-- Property assignment on a string-keyed field list: overwrite the value
stored under `name`, leave every other field untouched. -/
def writeParam (name : String) (value : ℚ) : List (String × ℚ) → List (String × ℚ)
  | [] => []
  | kv :: rest =>
    if kv.1 = name then (kv.1, value) :: writeParam name value rest
    else kv :: writeParam name value rest

/-- The keys a fresh `Parameters` instance inherits through its prototype
chain (`Parameters.prototype.constructor` and the `Object.prototype`
methods): the JavaScript `in` operator used by `Simulator.setParameter`
matches these even though they are not own data fields of the object. (The
exotic `__proto__` accessor, whose assignment rewires the prototype instead
of creating an own property, is outside the modelled state.) -/
def prototypeKeys : List String :=
  ["constructor", "hasOwnProperty", "isPrototypeOf", "propertyIsEnumerable",
   "toLocaleString", "toString", "valueOf",
   "__defineGetter__", "__defineSetter__", "__lookupGetter__", "__lookupSetter__"]

/-- The guarded assignment body of `Simulator.setParameter` (src/js/
simulator.js lines 191-195): `if (param in this.parameters)
this.parameters[param] = value`. The `in` test passes for an own data field
or for an inherited prototype key; the assignment overwrites the own field
in the first case and creates a new own property shadowing the prototype
entry in the second. -/
def setParamObject (ps : List (String × ℚ)) (name : String) (value : ℚ) :
    List (String × ℚ) :=
  if (lookupParam name ps).isSome then writeParam name value ps
  else if name ∈ prototypeKeys then ps ++ [(name, value)]
  else ps

/-- The state owned by a `Simulator` instance (src/js/simulator.js
constructor): population, society, parameter object, current time, time
step and running flag. -/
structure SimulatorState where
  numAgents : ℕ
  agents : List AgentState
  society : SocietyState
  parameters : List (String × ℚ)
  time : ℚ
  dt : ℚ
  running : Bool
deriving DecidableEq

/-- `Simulator.setParameter(param, value)` (src/js/simulator.js lines
191-195): mutate the parameter object through the guarded assignment; no
other simulator field is touched and no failure is signalled (the function
is total). -/
def SimulatorState.setParameter (sim : SimulatorState) (name : String)
    (value : ℚ) : SimulatorState :=
  { sim with parameters := setParamObject sim.parameters name value }

theorem clamp_le_clamp (v lo hi : ℚ) (h : lo ≤ hi) :
    lo ≤ clamp v lo hi ∧ clamp v lo hi ≤ hi :=
  ⟨le_max_left _ _, max_le h (min_le_left _ _)⟩

theorem update_inDomain (a : AgentState) (d : Derivatives) (dt : ℚ) :
    (a.update d dt).inDomain := by
  simp only [AgentState.update, AgentState.inDomain, clamp]
  refine ⟨le_max_left _ _, max_le (by norm_num) (min_le_left _ _),
          le_max_left _ _, max_le (by norm_num) (min_le_left _ _),
          le_max_left _ _, max_le (by norm_num) (min_le_left _ _),
          le_max_left _ _, max_le (by norm_num) (min_le_left _ _),
          le_max_left _ _, max_le (by norm_num) (min_le_left _ _),
          le_max_left _ _⟩

/-- Claim C5: for every agent, after any number of update
(`applyDerivatives`) calls with arbitrary derivative values and arbitrary
dt, every evolved field remains in its declared domain: democraticAdherence
and culturalTolerance in [-1, 1], security, permeability and civicEnergy in
[0, 1], and wealth nonnegative. -/
theorem agent_update_preserves_domain (a : AgentState)
    (calls : List (Derivatives × ℚ)) (h : a.inDomain) :
    (calls.foldl (fun s c => AgentState.update s c.1 c.2) a).inDomain := by
  induction calls generalizing a with
  | nil => exact h
  | cons c rest ih => exact ih _ (update_inDomain _ _ _)

/-- Witness for C5 at a concrete in-domain agent and one concrete call. -/
theorem agent_update_preserves_domain_witness :
    (⟨0, 0, 0, 0, 0, 0, 0, 0, 0, 0, 0, 0, 0, 0, []⟩ : AgentState).inDomain ∧
    (([(⟨1, 1, 1, 1, 1⟩, 1)] : List (Derivatives × ℚ)).foldl
      (fun s c => AgentState.update s c.1 c.2)
      ⟨0, 0, 0, 0, 0, 0, 0, 0, 0, 0, 0, 0, 0, 0, []⟩).inDomain := by
  have h0 : (⟨0, 0, 0, 0, 0, 0, 0, 0, 0, 0, 0, 0, 0, 0, []⟩ : AgentState).inDomain := by
    refine ⟨by norm_num, by norm_num, by norm_num, by norm_num, by norm_num,
            by norm_num, by norm_num, by norm_num, by norm_num, by norm_num,
            by norm_num⟩
  exact ⟨h0, agent_update_preserves_domain _ _ h0⟩

theorem zip_map_update {α β γ : Type} (l : List α) (g : α → β) (f : α → β → γ) :
    ((l.zip (l.map g)).map fun p => f p.1 p.2) = l.map fun a => f a (g a) := by
  induction l with
  | nil => rfl
  | cons a t ih => simp only [List.map_cons, List.zip_cons_cons]; rw [ih]

/-- Claim C6: within one `Simulator.step`, all 5 agent-level derivatives for
every agent and the 3 macro derivatives are evaluated from the pre-step
agent/society state (the state right after the contact pass, before any
Euler update): agent i's new state is its own pre-step state updated with a
derivative computed entirely from pre-step values, and the macro derivative
argument of the society update is computed from the pre-step population and
society, never from any post-step agent value. -/
theorem simulatorStep_synchronous (params : Parameters) (dt : ℚ)
    (draws : ℕ → ℚ × ℚ) (sqrtFn : ℚ → ℚ) (st : SimState) :
    (simulatorStep params dt draws sqrtFn st).agents =
      (simulateInterculturalContacts draws st).agents.map
        (fun a => AgentState.update a
          (computeAgentDerivatives a (simulateInterculturalContacts draws st).agents
            (simulateInterculturalContacts draws st).society params) dt) ∧
    (simulatorStep params dt draws sqrtFn st).society =
      SocietyState.update (simulatorStep params dt draws sqrtFn st).agents
        (simulateInterculturalContacts draws st).society
        (computeMacroDerivatives sqrtFn
          (simulateInterculturalContacts draws st).agents
          (simulateInterculturalContacts draws st).society params) dt := by
  constructor
  · simp only [simulatorStep]
    exact zip_map_update (simulateInterculturalContacts draws st).agents
      (fun a => computeAgentDerivatives a (simulateInterculturalContacts draws st).agents
        (simulateInterculturalContacts draws st).society params)
      (fun a d => AgentState.update a d dt)
  · rfl

/-- Claim C7: in `findParameterForPsi`'s bisection loop, the
within-tolerance candidate test for target Ψ = 0 is the one-sided check
psiMid ≤ 0 + tolerance, whereas for target Ψ = 0.3 it is the symmetric check
targetPsi − tolerance ≤ psiMid ≤ targetPsi + tolerance; the two targets are
not tested by the same formula (the point psiMid = −1 passes the target-0
test at tolerance 0.02 but fails the symmetric formula there). -/
theorem satisfiesCondition_asymmetric_at_zero :
    (∀ tolerance psiMid : ℚ,
      satisfiesCondition 0 tolerance psiMid = decide (psiMid ≤ 0 + tolerance)) ∧
    (∀ tolerance psiMid : ℚ,
      satisfiesCondition (3 / 10) tolerance psiMid =
        decide ((3 : ℚ) / 10 - tolerance ≤ psiMid ∧ psiMid ≤ 3 / 10 + tolerance)) ∧
    satisfiesCondition 0 (1 / 50) (-1) = true ∧
    ¬((0 : ℚ) - 1 / 50 ≤ -1 ∧ (-1 : ℚ) ≤ 0 + 1 / 50) := by
  refine ⟨fun tolerance psiMid => ?_, fun tolerance psiMid => ?_, ?_, ?_⟩
  · simp [satisfiesCondition]
  · unfold satisfiesCondition
    rw [if_neg (by norm_num)]
  · unfold satisfiesCondition
    rw [if_pos rfl, decide_eq_true_eq]
    norm_num
  · intro hc
    have := hc.1
    norm_num at this

/-- Claim C2: when the target Ψ lies strictly outside the interval between
the Ψ measurements at the two range endpoints, `findParameterForPsi` returns
exactly one of pMin or pMax, chosen by combining the requested extremum with
the measured direction isIncreasing = (Ψ(pMax-end) > Ψ(pMin-end)): for
extremum 'min', pMin if increasing else pMax; for extremum 'max', pMax if
increasing else pMin — never the endpoint whose Ψ value is merely nearest to
the target. -/
theorem findParameterForPsi_unreachable_target (e : ℕ → ℚ)
    (targetPsi pMin pMax tolerance : ℚ) (extremum : Extremum)
    (h : targetPsi < min (e 0) (e 1) ∨ max (e 0) (e 1) < targetPsi) :
    (findParameterForPsi e targetPsi pMin pMax tolerance extremum =
      match extremum with
      | Extremum.min => if e 0 < e 1 then pMin else pMax
      | Extremum.max => if e 0 < e 1 then pMax else pMin) ∧
    (findParameterForPsi e targetPsi pMin pMax tolerance extremum = pMin ∨
     findParameterForPsi e targetPsi pMin pMax tolerance extremum = pMax) := by
  have key : findParameterForPsi e targetPsi pMin pMax tolerance extremum =
      match extremum with
      | Extremum.min => if e 0 < e 1 then pMin else pMax
      | Extremum.max => if e 0 < e 1 then pMax else pMin := by
    simp only [findParameterForPsi]
    rw [if_pos h]
    cases extremum <;> by_cases hinc : e 0 < e 1 <;> simp [hinc]
  refine ⟨key, ?_⟩
  rw [key]
  cases extremum <;> by_cases hinc : e 0 < e 1 <;> simp [hinc]

/-- Witness for C2: with both endpoint measurements equal to 0 and target 1,
the target is unreachable and the 'min' search returns pMax = 7 (direction
not increasing). -/
theorem findParameterForPsi_unreachable_target_witness :
    ((1 : ℚ) < min ((fun _ => (0 : ℚ)) 0) ((fun _ => (0 : ℚ)) 1) ∨
      max ((fun _ => (0 : ℚ)) 0) ((fun _ => (0 : ℚ)) 1) < 1) ∧
    findParameterForPsi (fun _ => 0) 1 3 7 (1 / 100) Extremum.min = 7 := by
  have h : (1 : ℚ) < min ((fun _ => (0 : ℚ)) 0) ((fun _ => (0 : ℚ)) 1) ∨
      max ((fun _ => (0 : ℚ)) 0) ((fun _ => (0 : ℚ)) 1) < 1 := by
    right; norm_num
  refine ⟨h, ?_⟩
  have k := (findParameterForPsi_unreachable_target (fun _ => 0) 1 3 7 (1 / 100)
    Extremum.min h).1
  rw [k]
  norm_num

theorem bisectIter_range (e : ℕ → ℚ) (t tol : ℚ) (inc : Bool) (ext : Extremum)
    (pMin pMax : ℚ) (s : BisectState)
    (h1 : pMin ≤ s.low) (h2 : s.low ≤ s.high) (h3 : s.high ≤ pMax)
    (h4 : pMin ≤ s.best) (h5 : s.best ≤ pMax) :
    pMin ≤ (bisectIter e t tol inc ext s).low ∧
    (bisectIter e t tol inc ext s).low ≤ (bisectIter e t tol inc ext s).high ∧
    (bisectIter e t tol inc ext s).high ≤ pMax ∧
    pMin ≤ (bisectIter e t tol inc ext s).best ∧
    (bisectIter e t tol inc ext s).best ≤ pMax := by
  have hm1 : s.low ≤ (s.low + s.high) / 2 := by linarith
  have hm2 : (s.low + s.high) / 2 ≤ s.high := by linarith
  simp only [bisectIter]
  cases ext <;> split_ifs <;>
    exact ⟨by dsimp only; linarith, by dsimp only; linarith, by dsimp only; linarith,
           by dsimp only; linarith, by dsimp only; linarith⟩

theorem bisectLoop_range (e : ℕ → ℚ) (t tol : ℚ) (inc : Bool) (ext : Extremum)
    (pMin pMax : ℚ) (fuel : ℕ) :
    ∀ s : BisectState,
      pMin ≤ s.low → s.low ≤ s.high → s.high ≤ pMax → pMin ≤ s.best → s.best ≤ pMax →
      pMin ≤ (bisectLoop e t tol inc ext fuel s).low ∧
      (bisectLoop e t tol inc ext fuel s).low ≤ (bisectLoop e t tol inc ext fuel s).high ∧
      (bisectLoop e t tol inc ext fuel s).high ≤ pMax ∧
      pMin ≤ (bisectLoop e t tol inc ext fuel s).best ∧
      (bisectLoop e t tol inc ext fuel s).best ≤ pMax := by
  induction fuel with
  | zero => exact fun s h1 h2 h3 h4 h5 => ⟨h1, h2, h3, h4, h5⟩
  | succ n ih =>
    intro s h1 h2 h3 h4 h5
    simp only [bisectLoop]
    split_ifs with hw
    · obtain ⟨k1, k2, k3, k4, k5⟩ :=
        bisectIter_range e t tol inc ext pMin pMax s h1 h2 h3 h4 h5
      exact ih _ k1 k2 k3 k4 k5
    · exact ⟨h1, h2, h3, h4, h5⟩

/-- Claim C10: for every call of `findParameterForPsi` with pMin ≤ pMax, the
returned value lies in the closed interval [pMin, pMax], regardless of the
(stochastic) Ψ evaluations, the target, and the requested extremum. -/
theorem findParameterForPsi_result_in_range (e : ℕ → ℚ)
    (targetPsi pMin pMax tolerance : ℚ) (extremum : Extremum)
    (h : pMin ≤ pMax) :
    pMin ≤ findParameterForPsi e targetPsi pMin pMax tolerance extremum ∧
    findParameterForPsi e targetPsi pMin pMax tolerance extremum ≤ pMax := by
  simp only [findParameterForPsi]
  by_cases hrange : targetPsi < min (e 0) (e 1) ∨ max (e 0) (e 1) < targetPsi
  · rw [if_pos hrange]
    cases extremum <;> by_cases hinc : e 0 < e 1 <;> simp [hinc, h]
  · rw [if_neg hrange]
    cases extremum
    · obtain ⟨k1, k2, k3, k4, k5⟩ :=
        bisectLoop_range e targetPsi tolerance (decide (e 0 < e 1)) Extremum.min
          pMin pMax 30 ⟨pMin, pMax, pMax, 2⟩ (le_refl _) h (le_refl _) h (le_refl _)
      have hfm1 : pMin ≤
          ((bisectLoop e targetPsi tolerance (decide (e 0 < e 1)) Extremum.min 30
            ⟨pMin, pMax, pMax, 2⟩).low +
           (bisectLoop e targetPsi tolerance (decide (e 0 < e 1)) Extremum.min 30
            ⟨pMin, pMax, pMax, 2⟩).high) / 2 := by linarith
      have hfm2 :
          ((bisectLoop e targetPsi tolerance (decide (e 0 < e 1)) Extremum.min 30
            ⟨pMin, pMax, pMax, 2⟩).low +
           (bisectLoop e targetPsi tolerance (decide (e 0 < e 1)) Extremum.min 30
            ⟨pMin, pMax, pMax, 2⟩).high) / 2 ≤ pMax := by linarith
      split_ifs
      · exact ⟨le_min k4 hfm1, le_trans (min_le_left _ _) k5⟩
      · exact ⟨k4, k5⟩
      · exact ⟨hfm1, hfm2⟩
    · obtain ⟨k1, k2, k3, k4, k5⟩ :=
        bisectLoop_range e targetPsi tolerance (decide (e 0 < e 1)) Extremum.max
          pMin pMax 30 ⟨pMin, pMax, pMin, 2⟩ (le_refl _) h (le_refl _) (le_refl _) h
      have hfm1 : pMin ≤
          ((bisectLoop e targetPsi tolerance (decide (e 0 < e 1)) Extremum.max 30
            ⟨pMin, pMax, pMin, 2⟩).low +
           (bisectLoop e targetPsi tolerance (decide (e 0 < e 1)) Extremum.max 30
            ⟨pMin, pMax, pMin, 2⟩).high) / 2 := by linarith
      have hfm2 :
          ((bisectLoop e targetPsi tolerance (decide (e 0 < e 1)) Extremum.max 30
            ⟨pMin, pMax, pMin, 2⟩).low +
           (bisectLoop e targetPsi tolerance (decide (e 0 < e 1)) Extremum.max 30
            ⟨pMin, pMax, pMin, 2⟩).high) / 2 ≤ pMax := by linarith
      split_ifs
      · exact ⟨le_trans k4 (le_max_left _ _), max_le k5 hfm2⟩
      · exact ⟨k4, k5⟩
      · exact ⟨hfm1, hfm2⟩

/-- Witness for C10 at a concrete range and evaluation stream. -/
theorem findParameterForPsi_result_in_range_witness :
    (0 : ℚ) ≤ 2 ∧
    ((0 : ℚ) ≤ findParameterForPsi (fun _ => 0) 1 0 2 (1 / 50) Extremum.min ∧
     findParameterForPsi (fun _ => 0) 1 0 2 (1 / 50) Extremum.min ≤ 2) :=
  ⟨by norm_num,
   findParameterForPsi_result_in_range (fun _ => 0) 1 0 2 (1 / 50) Extremum.min
     (by norm_num)⟩

theorem realizationLoop_spec (fuel : ℕ) :
    ∀ (stepF : ℕ → SimState → SimState) (st : SimState),
      ∃ k, k ≤ fuel ∧
        realizationLoop stepF fuel st = realizationOrbit stepF k st ∧
        (∀ j, 1 ≤ j → j < k → ¬ stableReached (realizationOrbit stepF j st)) ∧
        (k < fuel → stableReached (realizationOrbit stepF k st)) := by
  induction fuel with
  | zero =>
    intro stepF st
    exact ⟨0, le_refl 0, rfl, fun j hj hjk => absurd hjk (by omega),
           fun hk => absurd hk (by omega)⟩
  | succ n ih =>
    intro stepF st
    by_cases h : stableReached (stepF 0 st)
    · refine ⟨1, by omega, ?_, ?_, ?_⟩
      · simp only [realizationLoop, if_pos h]
        rfl
      · intro j hj hjk
        omega
      · intro _
        exact h
    · obtain ⟨k, hk, heq, hmin, hstop⟩ := ih (fun j => stepF (j + 1)) (stepF 0 st)
      refine ⟨k + 1, by omega, ?_, ?_, ?_⟩
      · simp only [realizationLoop, if_neg h]
        exact heq
      · intro j hj hjk
        cases j with
        | zero => omega
        | succ m =>
          cases m with
          | zero => exact h
          | succ m2 => exact hmin (m2 + 1) (by omega) (by omega)
      · intro hlt
        exact hstop (by omega)

/-- Claim C4: during one realization run toward steady state, once
institutionalQuality falls to or below 0.05 or the order parameter rises to
or above 0.95 (at the state reached by an integration step), no further
integration step is performed: the realization stops at the first post-step
state satisfying the absorbing condition, or after the nominal
numSteps = ⌊tMax/dt⌋ steps, whichever comes first, and its final order
parameter is the order parameter at that stopping point. -/
theorem singleRealization_stops_at_first_absorbing (params : Parameters)
    (tMax dt : ℚ) (draws : ℕ → ℕ → ℚ × ℚ) (sqrtFn : ℚ → ℚ) (init : SimState) :
    ∃ k, k ≤ numSteps tMax dt ∧
      singleRealizationFinal params tMax dt draws sqrtFn init =
        realizationOrbit (fun j => simulatorStep params dt (draws j) sqrtFn) k init ∧
      singleRealizationPsi params tMax dt draws sqrtFn init =
        (realizationOrbit (fun j => simulatorStep params dt (draws j) sqrtFn) k
          init).orderParameter ∧
      (∀ j, 1 ≤ j → j < k →
        ¬ stableReached
          (realizationOrbit (fun i => simulatorStep params dt (draws i) sqrtFn) j init)) ∧
      (k < numSteps tMax dt →
        stableReached
          (realizationOrbit (fun j => simulatorStep params dt (draws j) sqrtFn) k init)) := by
  obtain ⟨k, hk, heq, hmin, hstop⟩ :=
    realizationLoop_spec (numSteps tMax dt)
      (fun j => simulatorStep params dt (draws j) sqrtFn) init
  exact ⟨k, hk, heq, congrArg SimState.orderParameter heq, hmin, hstop⟩

theorem list_range_map_sum (n : ℕ) (f : ℕ → ℚ) :
    ((List.range n).map f).sum = ∑ i in Finset.range n, f i := by
  induction n with
  | zero => rfl
  | succ m ih =>
    rw [List.range_succ, List.map_append, List.sum_append, Finset.sum_range_succ, ih]
    simp

/-- Claim C3 (amended): `simulateToSteadyState` runs K = 10 independent
realizations (the default `numRealizations`) and returns the arithmetic mean
of their K final order-parameter values; the standard deviation across the
realizations is computed internally (see `realizationVariance`) but only
written to the console log when it exceeds 0.05 — it is not part of the
value returned to the caller. -/
theorem simulateToSteadyState_mean_of_ten (params : Parameters) (tMax dt : ℚ)
    (inits : ℕ → SimState) (draws : ℕ → ℕ → ℕ → ℚ × ℚ) (sqrtFn : ℚ → ℚ) :
    simulateToSteadyState params tMax dt 10 inits draws sqrtFn =
      (∑ r in Finset.range 10,
        singleRealizationPsi params tMax dt (draws r) sqrtFn (inits r)) / 10 := by
  simp only [simulateToSteadyState]
  rw [list_range_map_sum]
  norm_num

/-- Counterexample for C3: two configurations whose 10 realization Ψ values
have the same mean (0) but different spread (variance 0 versus 1) produce
identical `simulateToSteadyState` return values, so the standard deviation
across the K realizations is not surfaced to the caller — it cannot be
recovered from what the caller receives. -/
theorem simulateToSteadyState_stddev_not_returned_cex :
    (simulateToSteadyState
        ⟨0, 0, 0, 0, 0, 0, 0, 0, 0, 0, 0, 0, 0, 0, 0, 0, 0, 0, 0, 0, 0, 0, 0, 0, 0,
         0, 0, 0, 0, 0⟩ 0 1 10
        (fun _ => ⟨[⟨0, 0, 0, 0, 0, 0, 0, 0, 0, 0, 0, 0, 0, 0, []⟩],
          ⟨3 / 10, 1 / 5, 1 / 2, 1, 1 / 5, 1 / 5, 1 / 5⟩⟩)
        (fun _ _ _ => (0, 0)) (fun q => q) =
      simulateToSteadyState
        ⟨0, 0, 0, 0, 0, 0, 0, 0, 0, 0, 0, 0, 0, 0, 0, 0, 0, 0, 0, 0, 0, 0, 0, 0, 0,
         0, 0, 0, 0, 0⟩ 0 1 10
        (fun r => if r % 2 = 0
          then ⟨[⟨0, 0, 0, 0, 0, 0, 0, 0, 0, 0, 0, 1, 0, 0, []⟩],
            ⟨3 / 10, 1 / 5, 1 / 2, 1, 1 / 5, 1 / 5, 1 / 5⟩⟩
          else ⟨[⟨0, 0, 0, 0, 0, 0, 0, 0, 0, 0, 0, -1, 0, 0, []⟩],
            ⟨3 / 10, 1 / 5, 1 / 2, 1, 1 / 5, 1 / 5, 1 / 5⟩⟩)
        (fun _ _ _ => (0, 0)) (fun q => q)) ∧
    realizationVariance
        ⟨0, 0, 0, 0, 0, 0, 0, 0, 0, 0, 0, 0, 0, 0, 0, 0, 0, 0, 0, 0, 0, 0, 0, 0, 0,
         0, 0, 0, 0, 0⟩ 0 1 10
        (fun _ => ⟨[⟨0, 0, 0, 0, 0, 0, 0, 0, 0, 0, 0, 0, 0, 0, []⟩],
          ⟨3 / 10, 1 / 5, 1 / 2, 1, 1 / 5, 1 / 5, 1 / 5⟩⟩)
        (fun _ _ _ => (0, 0)) (fun q => q) ≠
      realizationVariance
        ⟨0, 0, 0, 0, 0, 0, 0, 0, 0, 0, 0, 0, 0, 0, 0, 0, 0, 0, 0, 0, 0, 0, 0, 0, 0,
         0, 0, 0, 0, 0⟩ 0 1 10
        (fun r => if r % 2 = 0
          then ⟨[⟨0, 0, 0, 0, 0, 0, 0, 0, 0, 0, 0, 1, 0, 0, []⟩],
            ⟨3 / 10, 1 / 5, 1 / 2, 1, 1 / 5, 1 / 5, 1 / 5⟩⟩
          else ⟨[⟨0, 0, 0, 0, 0, 0, 0, 0, 0, 0, 0, -1, 0, 0, []⟩],
            ⟨3 / 10, 1 / 5, 1 / 2, 1, 1 / 5, 1 / 5, 1 / 5⟩⟩)
        (fun _ _ _ => (0, 0)) (fun q => q) := by
  have h0 : numSteps 0 1 = 0 := by norm_num [numSteps]
  constructor
  · simp only [simulateToSteadyState, singleRealizationPsi, singleRealizationFinal,
      h0, realizationLoop, SimState.orderParameter, getAverage]
    norm_num [List.range_succ, List.range_zero]
  · simp only [realizationVariance, singleRealizationPsi, singleRealizationFinal,
      h0, realizationLoop, SimState.orderParameter, getAverage]
    norm_num [List.range_succ, List.range_zero]

theorem analyzeSensitivity_trace (oracle : String → ℚ → ℕ → ℚ) :
    (analyzeSensitivity oracle).2 =
      [SensEvent.progress "beta1" 1 7,
       SensEvent.search "beta1" 0 0 2 (1 / 50) Extremum.max,
       SensEvent.search "beta1" (3 / 10) 0 2 (1 / 50) Extremum.min,
       SensEvent.progress "beta2" 2 7,
       SensEvent.search "beta2" 0 0 2 (1 / 50) Extremum.min,
       SensEvent.search "beta2" (3 / 10) 0 2 (1 / 50) Extremum.max,
       SensEvent.progress "beta3" 3 7,
       SensEvent.search "beta3" 0 0 2 (1 / 50) Extremum.max,
       SensEvent.search "beta3" (3 / 10) 0 2 (1 / 50) Extremum.min,
       SensEvent.progress "beta4" 4 7,
       SensEvent.search "beta4" 0 0 2 (1 / 50) Extremum.min,
       SensEvent.search "beta4" (3 / 10) 0 2 (1 / 50) Extremum.max,
       SensEvent.progress "mu1" 5 7,
       SensEvent.search "mu1" 0 0 1 (1 / 50) Extremum.max,
       SensEvent.search "mu1" (3 / 10) 0 1 (1 / 50) Extremum.min,
       SensEvent.progress "mu2" 6 7,
       SensEvent.search "mu2" 0 0 1 (1 / 50) Extremum.min,
       SensEvent.search "mu2" (3 / 10) 0 1 (1 / 50) Extremum.max,
       SensEvent.progress "mu3" 7 7,
       SensEvent.search "mu3" 0 0 1 (1 / 50) Extremum.min,
       SensEvent.search "mu3" (3 / 10) 0 1 (1 / 50) Extremum.max] := rfl

/-- Claim C1: for every virtuous tunable parameter, `analyzeSensitivity`
performs the autocratic-threshold search (target Ψ = 0) requesting the 'max'
extremum and the democratic-threshold search (target Ψ = 0.3) requesting the
'min' extremum; for every harmful parameter the two extrema are swapped
('min' for the autocratic search, 'max' for the democratic search). -/
theorem analyzeSensitivity_extremum_pairing (oracle : String → ℚ → ℕ → ℚ)
    (p : SweepParam) (hp : p ∈ parametersToAnalyze) :
    SensEvent.search p.key 0 p.min p.max (1 / 50)
        (if p.virtuous then Extremum.max else Extremum.min) ∈
      (analyzeSensitivity oracle).2 ∧
    SensEvent.search p.key (3 / 10) p.min p.max (1 / 50)
        (if p.virtuous then Extremum.min else Extremum.max) ∈
      (analyzeSensitivity oracle).2 := by
  rw [analyzeSensitivity_trace]
  simp only [parametersToAnalyze, List.mem_cons, List.not_mem_nil, or_false] at hp
  rcases hp with rfl | rfl | rfl | rfl | rfl | rfl | rfl <;> constructor <;> simp

/-- Witness for C1 at the first sweep entry (beta1, virtuous) and a concrete
oracle. -/
theorem analyzeSensitivity_extremum_pairing_witness :
    (⟨"beta1", 0, 2, true⟩ : SweepParam) ∈ parametersToAnalyze ∧
    (SensEvent.search "beta1" 0 0 2 (1 / 50) Extremum.max ∈
        (analyzeSensitivity (fun _ _ _ => 0)).2 ∧
     SensEvent.search "beta1" (3 / 10) 0 2 (1 / 50) Extremum.min ∈
        (analyzeSensitivity (fun _ _ _ => 0)).2) := by
  have hp : (⟨"beta1", 0, 2, true⟩ : SweepParam) ∈ parametersToAnalyze :=
    List.Mem.head _
  exact ⟨hp, analyzeSensitivity_extremum_pairing (fun _ _ _ => 0) _ hp⟩

/-- Claim C9 (amended): `analyzeSensitivity` invokes the caller-supplied
progress callback immediately before starting each parameter's pair of
searches (not after completing them), once per tunable parameter in sweep
order, passing (parameterName, the 1-based position of the parameter being
started, totalCount): the full trace, for every Ψ-evaluation oracle, is
progress-then-two-searches for each of the 7 sweep parameters in order. -/
theorem analyzeSensitivity_progress_trace (oracle : String → ℚ → ℕ → ℚ) :
    (analyzeSensitivity oracle).2 =
      [SensEvent.progress "beta1" 1 7,
       SensEvent.search "beta1" 0 0 2 (1 / 50) Extremum.max,
       SensEvent.search "beta1" (3 / 10) 0 2 (1 / 50) Extremum.min,
       SensEvent.progress "beta2" 2 7,
       SensEvent.search "beta2" 0 0 2 (1 / 50) Extremum.min,
       SensEvent.search "beta2" (3 / 10) 0 2 (1 / 50) Extremum.max,
       SensEvent.progress "beta3" 3 7,
       SensEvent.search "beta3" 0 0 2 (1 / 50) Extremum.max,
       SensEvent.search "beta3" (3 / 10) 0 2 (1 / 50) Extremum.min,
       SensEvent.progress "beta4" 4 7,
       SensEvent.search "beta4" 0 0 2 (1 / 50) Extremum.min,
       SensEvent.search "beta4" (3 / 10) 0 2 (1 / 50) Extremum.max,
       SensEvent.progress "mu1" 5 7,
       SensEvent.search "mu1" 0 0 1 (1 / 50) Extremum.max,
       SensEvent.search "mu1" (3 / 10) 0 1 (1 / 50) Extremum.min,
       SensEvent.progress "mu2" 6 7,
       SensEvent.search "mu2" 0 0 1 (1 / 50) Extremum.min,
       SensEvent.search "mu2" (3 / 10) 0 1 (1 / 50) Extremum.max,
       SensEvent.progress "mu3" 7 7,
       SensEvent.search "mu3" 0 0 1 (1 / 50) Extremum.min,
       SensEvent.search "mu3" (3 / 10) 0 1 (1 / 50) Extremum.max] := rfl

/-- Counterexample for C9 as stated: with a concrete oracle, the very first
event of `analyzeSensitivity`'s call trace is already the progress
invocation for beta1 (carrying index 1 of 7), beta1's two searches only
follow it, and no other progress invocation for beta1 occurs later — so the
callback is invoked before, not after, completing the parameter's pair of
searches. -/
theorem analyzeSensitivity_progress_before_searches_cex :
    (analyzeSensitivity (fun _ _ _ => 0)).2.get? 0 =
        some (SensEvent.progress "beta1" 1 7) ∧
    (analyzeSensitivity (fun _ _ _ => 0)).2.get? 1 =
        some (SensEvent.search "beta1" 0 0 2 (1 / 50) Extremum.max) ∧
    (analyzeSensitivity (fun _ _ _ => 0)).2.get? 2 =
        some (SensEvent.search "beta1" (3 / 10) 0 2 (1 / 50) Extremum.min) ∧
    ∀ e ∈ (analyzeSensitivity (fun _ _ _ => 0)).2.drop 1,
      e ≠ SensEvent.progress "beta1" 1 7 := by
  refine ⟨rfl, rfl, rfl, ?_⟩
  rw [analyzeSensitivity_trace]
  intro e he
  fin_cases he <;> simp

theorem lookupParam_writeParam_self (name : String) (value : ℚ)
    (ps : List (String × ℚ)) (h : (lookupParam name ps).isSome = true) :
    lookupParam name (writeParam name value ps) = some value := by
  induction ps with
  | nil => simp [lookupParam] at h
  | cons kv rest ih =>
    by_cases hk : kv.1 = name
    · simp [writeParam, lookupParam, hk]
    · simp only [lookupParam, if_neg hk] at h
      simp only [writeParam, if_neg hk, lookupParam, if_neg hk]
      exact ih h

theorem lookupParam_writeParam_other (name other : String) (value : ℚ)
    (ps : List (String × ℚ)) (h : other ≠ name) :
    lookupParam other (writeParam name value ps) = lookupParam other ps := by
  induction ps with
  | nil => rfl
  | cons kv rest ih =>
    simp only [writeParam]
    by_cases hk : kv.1 = name
    · rw [if_pos hk]
      simp only [lookupParam]
      have hko : ¬ kv.1 = other := fun hh => h (by rw [← hh]; exact hk)
      rw [if_neg hko, if_neg hko]
      exact ih
    · rw [if_neg hk]
      simp only [lookupParam]
      by_cases ho : kv.1 = other
      · rw [if_pos ho, if_pos ho]
      · rw [if_neg ho, if_neg ho]
        exact ih

theorem lookupParam_append (k : String) (ps qs : List (String × ℚ)) :
    lookupParam k (ps ++ qs) =
      match lookupParam k ps with
      | some v => some v
      | none => lookupParam k qs := by
  induction ps with
  | nil => rfl
  | cons kv rest ih =>
    by_cases hk : kv.1 = k
    · simp only [List.cons_append, lookupParam, if_pos hk]
    · simp only [List.cons_append, lookupParam, if_neg hk]
      exact ih

/-- Counterexample for C8 as stated: `toString` is not a field of the
Parameters object, yet `Simulator.setParameter` with it is not a no-op —
the JavaScript `in` guard matches the key through the prototype chain and
the assignment mutates the parameter object (it gains an own property
shadowing the prototype entry). -/
theorem setParameter_prototype_key_cex :
    lookupParam "toString" parametersObject = none ∧
    SimulatorState.setParameter
        ⟨100, [], ⟨3 / 10, 1 / 5, 1 / 2, 7 / 10, 1 / 5, 1 / 5, 1 / 5⟩,
         parametersObject, 0, 1 / 100, false⟩ "toString" 5 ≠
      ⟨100, [], ⟨3 / 10, 1 / 5, 1 / 2, 7 / 10, 1 / 5, 1 / 5, 1 / 5⟩,
       parametersObject, 0, 1 / 100, false⟩ := by
  have hl : lookupParam "toString" parametersObject = none := by decide
  have hm : "toString" ∈ prototypeKeys := by decide
  refine ⟨hl, fun hoeq => ?_⟩
  have h1 := congrArg (fun s => s.parameters.length) hoeq
  simp only [SimulatorState.setParameter, setParamObject, hl, Option.isSome_none,
    Bool.false_eq_true, if_false, if_pos hm] at h1
  simp [parametersObject] at h1

/-- Claim C8 (amended): `Simulator.setParameter(param, value)` is total and
never signals failure; with a name that is neither an own field of the
Parameters object nor an inherited prototype key it leaves the parameter set
and all other simulator state unchanged; with an own-field name it sets
exactly that one parameter field to the given value and changes nothing
else; with an inherited prototype key (e.g. `toString`) the JavaScript `in`
guard passes and the assignment appends a new own property shadowing the
prototype entry, while every own parameter field and every other simulator
field keeps its value. -/
theorem setParameter_guard_semantics (sim : SimulatorState) (name : String)
    (value : ℚ) :
    (lookupParam name sim.parameters = none → name ∉ prototypeKeys →
      sim.setParameter name value = sim) ∧
    ((lookupParam name sim.parameters).isSome = true →
      lookupParam name (sim.setParameter name value).parameters = some value ∧
      (∀ other, other ≠ name →
        lookupParam other (sim.setParameter name value).parameters =
          lookupParam other sim.parameters) ∧
      (sim.setParameter name value).numAgents = sim.numAgents ∧
      (sim.setParameter name value).agents = sim.agents ∧
      (sim.setParameter name value).society = sim.society ∧
      (sim.setParameter name value).time = sim.time ∧
      (sim.setParameter name value).dt = sim.dt ∧
      (sim.setParameter name value).running = sim.running) ∧
    (lookupParam name sim.parameters = none → name ∈ prototypeKeys →
      (sim.setParameter name value).parameters =
        sim.parameters ++ [(name, value)] ∧
      (∀ other, other ≠ name →
        lookupParam other (sim.setParameter name value).parameters =
          lookupParam other sim.parameters) ∧
      (sim.setParameter name value).numAgents = sim.numAgents ∧
      (sim.setParameter name value).agents = sim.agents ∧
      (sim.setParameter name value).society = sim.society ∧
      (sim.setParameter name value).time = sim.time ∧
      (sim.setParameter name value).dt = sim.dt ∧
      (sim.setParameter name value).running = sim.running) := by
  refine ⟨?_, ?_, ?_⟩
  · intro h hn
    simp [SimulatorState.setParameter, setParamObject, h, hn]
  · intro h
    simp only [SimulatorState.setParameter, setParamObject, h, if_pos]
    refine ⟨lookupParam_writeParam_self name value sim.parameters h,
           fun other ho => lookupParam_writeParam_other name other value sim.parameters ho,
           ?_, ?_, ?_, ?_, ?_, ?_⟩ <;> trivial
  · intro h hm
    simp only [SimulatorState.setParameter, setParamObject, h, Option.isSome_none,
      Bool.false_eq_true, if_false, if_pos hm]
    refine ⟨by trivial, fun other ho => ?_, ?_, ?_, ?_, ?_, ?_, ?_⟩
    · rw [lookupParam_append]
      cases hcase : lookupParam other sim.parameters with
      | some v => rfl
      | none =>
        simp only [lookupParam]
        rw [if_neg fun hh => ho hh.symm]
    all_goals trivial

/-- Witness for C8: the name zzz is neither a parameter field nor a
prototype key; the call is a no-op on a concrete simulator state. -/
theorem setParameter_guard_semantics_witness :
    (lookupParam "zzz" parametersObject = none ∧ "zzz" ∉ prototypeKeys) ∧
    SimulatorState.setParameter
        ⟨100, [], ⟨3 / 10, 1 / 5, 1 / 2, 7 / 10, 1 / 5, 1 / 5, 1 / 5⟩,
         parametersObject, 0, 1 / 100, false⟩ "zzz" 5 =
      ⟨100, [], ⟨3 / 10, 1 / 5, 1 / 2, 7 / 10, 1 / 5, 1 / 5, 1 / 5⟩,
       parametersObject, 0, 1 / 100, false⟩ := by
  have h1 : lookupParam "zzz" parametersObject = none := by decide
  have h2 : "zzz" ∉ prototypeKeys := by decide
  exact ⟨⟨h1, h2⟩,
    (setParameter_guard_semantics
      ⟨100, [], ⟨3 / 10, 1 / 5, 1 / 2, 7 / 10, 1 / 5, 1 / 5, 1 / 5⟩,
       parametersObject, 0, 1 / 100, false⟩ "zzz" 5).1 h1 h2⟩
